import Mathlib

/-!
Verification of the TFTP packet codec (tftp-packet-rs).

Bytes are modelled as natural numbers (each source byte is a `u8`, so values
are below 256 where it matters); Rust `String` values are modelled by their
UTF-8 byte lists, with validity expressed by the `utf8_valid` predicate, which
transcribes the UTF-8 well-formedness rules enforced by `str::from_utf8`.
Rust `Result` plus the possibility of a panic (slice indexing out of bounds)
is modelled by the three-valued `RResult`.
-/

namespace TFTP

/-- The error type for the tftp packet (`PacketError` in `lib.rs`). -/
inductive PacketError where
  | InvalidPacket (msg : String)
  | InvalidPacketLength (expected : Nat)
  | InvalidOpcode (msg : String)
deriving DecidableEq

/-- Outcome of a fallible Rust computation: success, a returned error, or a
panic (used to model out-of-bounds slice indexing). -/
inductive RResult (α : Type) where
  | ok : α → RResult α
  | err : PacketError → RResult α
  | panic : RResult α
deriving DecidableEq

/-- All tftp opcodes defined in rfc1350 (`Opcode` in `lib.rs`). -/
inductive Opcode where
  | RRQ
  | WRQ
  | DATA
  | ACK
  | ERROR
deriving DecidableEq

/-- `impl TryFrom<u16> for Opcode`. The source arm `Err("Invalid opcode: {}")?`
carries the literal braces in its message. -/
def Opcode.try_from_u16 (value : Nat) : Except String Opcode :=
  if value = 1 then .ok .RRQ
  else if value = 2 then .ok .WRQ
  else if value = 3 then .ok .DATA
  else if value = 4 then .ok .ACK
  else if value = 5 then .ok .ERROR
  else .error "Invalid opcode: \x7b\x7d"

/-- All modes defined in rfc1350 (`Mode` in `lib.rs`). -/
inductive Mode where
  | Netascii
  | Octet
  | Mail
deriving DecidableEq

/-- `Mode::as_str` / `impl Into<&str> for &Mode`, as UTF-8 bytes:
"netascii", "octet", "mail". -/
def Mode.as_str : Mode → List Nat
  | .Netascii => [110, 101, 116, 97, 115, 99, 105, 105]
  | .Octet => [111, 99, 116, 101, 116]
  | .Mail => [109, 97, 105, 108]

/-- `impl TryFrom<&str> for Mode`: exact match against "netascii", "octet",
"mail". -/
def Mode.try_from (value : List Nat) : Except String Mode :=
  if value = [110, 101, 116, 97, 115, 99, 105, 105] then .ok .Netascii
  else if value = [111, 99, 116, 101, 116] then .ok .Octet
  else if value = [109, 97, 105, 108] then .ok .Mail
  else .error "Invalid mode"

/-- All error codes defined in rfc1350 for an ERROR packet (`ErrorCode`). -/
inductive ErrorCode where
  | NotDefined
  | FileNotFound
  | AccessViolation
  | DiskFull
  | IllegalOperation
  | UnknownTransferId
  | FileAlreadyExists
  | NoSuchUser
deriving DecidableEq

/-- `impl TryFrom<u16> for ErrorCode`. -/
def ErrorCode.try_from_u16 (value : Nat) : Except String ErrorCode :=
  if value = 0 then .ok .NotDefined
  else if value = 1 then .ok .FileNotFound
  else if value = 2 then .ok .AccessViolation
  else if value = 3 then .ok .DiskFull
  else if value = 4 then .ok .IllegalOperation
  else if value = 5 then .ok .UnknownTransferId
  else if value = 6 then .ok .FileAlreadyExists
  else if value = 7 then .ok .NoSuchUser
  else .error "Invalid error code"

/-- `error_code as u16`: the enum discriminant, 0 through 7 in declaration
order. -/
def ErrorCode.to_u16 : ErrorCode → Nat
  | .NotDefined => 0
  | .FileNotFound => 1
  | .AccessViolation => 2
  | .DiskFull => 3
  | .IllegalOperation => 4
  | .UnknownTransferId => 5
  | .FileAlreadyExists => 6
  | .NoSuchUser => 7

/-- `take_u16` in `parsing.rs` (`nom::number::complete::be_u16`): consume two
bytes, big-endian; fail when fewer than two bytes remain. Returns
(remaining, value) in nom order. -/
def take_u16 (input : List Nat) : Option (List Nat × Nat) :=
  match input with
  | a :: b :: rest => some (rest, a * 256 + b)
  | _ => none

/-- `take_till_null` in `parsing.rs` (`nom::bytes::complete::take_till`):
split at the first zero byte. The complete-variant combinator never fails: if
no zero byte is present the whole input is consumed. The remaining slice
begins at (still contains) the zero byte. Returns (remaining, taken). -/
def take_till_null : List Nat → Option (List Nat × List Nat)
  | [] => some ([], [])
  | b :: rest =>
    if b = 0 then some (b :: rest, [])
    else
      match take_till_null rest with
      | some (rem, taken) => some (rem, b :: taken)
      | none => none

/-- Whether a byte is a UTF-8 continuation byte (0x80-0xBF). -/
def utf8_cont (b : Nat) : Bool := 0x80 ≤ b && b ≤ 0xBF

/-- UTF-8 well-formedness of a byte list, as enforced by `str::from_utf8`
(rejecting overlong encodings and surrogates). -/
def utf8_valid : List Nat → Bool
  | [] => true
  | b :: rest =>
    if b ≤ 0x7F then utf8_valid rest
    else if b < 0xC2 then false
    else if b ≤ 0xDF then
      match rest with
      | c1 :: r => utf8_cont c1 && utf8_valid r
      | [] => false
    else if b ≤ 0xEF then
      match rest with
      | c1 :: c2 :: r =>
        (if b = 0xE0 then decide (0xA0 ≤ c1) && decide (c1 ≤ 0xBF)
         else if b = 0xED then decide (0x80 ≤ c1) && decide (c1 ≤ 0x9F)
         else utf8_cont c1) && utf8_cont c2 && utf8_valid r
      | _ => false
    else if b ≤ 0xF4 then
      match rest with
      | c1 :: c2 :: c3 :: r =>
        (if b = 0xF0 then decide (0x90 ≤ c1) && decide (c1 ≤ 0xBF)
         else if b = 0xF4 then decide (0x80 ≤ c1) && decide (c1 ≤ 0x8F)
         else utf8_cont c1) && utf8_cont c2 && utf8_cont c3 && utf8_valid r
      | _ => false
    else false

/-- `std::str::from_utf8`: succeed exactly on well-formed UTF-8, and a Rust
`String` is modelled by its byte list. -/
def from_utf8 (bs : List Nat) : Option (List Nat) :=
  if utf8_valid bs then some bs else none

/-- `parse_filename` in `parsing.rs`. The final `Ok((filename, &bytes[1..]))`
indexes past the start of the remaining slice: when that slice is empty (no
null terminator was present in the input) the Rust code panics, modelled by
`RResult.panic`. -/
def parse_filename (bytes : List Nat) : RResult (List Nat × List Nat) :=
  match take_till_null bytes with
  | none => .err (.InvalidPacket "Error while parsing filename")
  | some (bytes, filename) =>
    match from_utf8 filename with
    | none =>
      .err (.InvalidPacket "Error while parsing filename. Not a valid UTF-8 string.")
    | some filename =>
      match bytes with
      | [] => .panic
      | _ :: rest => .ok (filename, rest)

/-- `parse_mode` in `parsing.rs`. -/
def parse_mode (bytes : List Nat) : RResult (Mode × List Nat) :=
  match take_till_null bytes with
  | none => .err (.InvalidPacket "Error while parsing mode")
  | some (bytes, mode_bytes) =>
    match from_utf8 mode_bytes with
    | none =>
      .err (.InvalidPacket "Error while parsing mode. Not a valid UTF-8 string.")
    | some mode =>
      match Mode.try_from mode with
      | .error _ =>
        .err (.InvalidPacket "Error while parsing mode. Not a valid mode string.")
      | .ok mode => .ok (mode, bytes)

/-- `parse_block_number` in `parsing.rs`. -/
def parse_block_number (bytes : List Nat) : RResult (Nat × List Nat) :=
  match take_u16 bytes with
  | none =>
    .err (.InvalidPacket "Error while parsing block number. Block number not a u16.")
  | some (bytes, block_number) => .ok (block_number, bytes)

/-- `parse_error_code` in `parsing.rs`. -/
def parse_error_code (bytes : List Nat) : RResult (ErrorCode × List Nat) :=
  match take_u16 bytes with
  | none =>
    .err (.InvalidPacket "Error while parsing error code. Error code not a u16.")
  | some (bytes, error_code) =>
    match ErrorCode.try_from_u16 error_code with
    | .error _ =>
      .err (.InvalidPacket "Error while parsing error code. Error code not a valid error code.")
    | .ok error_code => .ok (error_code, bytes)

/-- `parse_error_message` in `parsing.rs`. Unlike `parse_filename` it does not
step past the terminator, so it cannot panic. -/
def parse_error_message (bytes : List Nat) : RResult (List Nat × List Nat) :=
  match take_till_null bytes with
  | none => .err (.InvalidPacket "Error while parsing error message")
  | some (bytes, error_msg) =>
    match from_utf8 error_msg with
    | none =>
      .err (.InvalidPacket "Error while parsing error msg. Invalid UTF-8 string.")
    | some error_msg => .ok (error_msg, bytes)

/-- The tftp packet (`Packet` in `lib.rs`); text fields carry their UTF-8
bytes, `block_number` is a `u16` value. -/
inductive Packet where
  | RRQ (filename : List Nat) (mode : Mode)
  | WRQ (filename : List Nat) (mode : Mode)
  | DATA (block_number : Nat) (data : List Nat)
  | ACK (block_number : Nat)
  | ERROR (error_code : ErrorCode) (error_msg : List Nat)
deriving DecidableEq

/-- `u16::to_be_bytes` for a value below 2^16. -/
def u16_to_be (n : Nat) : List Nat := [n / 256 % 256, n % 256]

/-- `Packet::from_bytes` in `lib.rs`. -/
def Packet.from_bytes (bytes : List Nat) : RResult Packet :=
  match take_u16 bytes with
  | none => .err (.InvalidOpcode "Error while parsing opcode. Opcode not a u15.")
  | some (bytes, opcode_bytes) =>
    match Opcode.try_from_u16 opcode_bytes with
    | .error e => .err (.InvalidOpcode ("Error while parsing opcode: " ++ e))
    | .ok opcode =>
      match opcode with
      | .RRQ =>
        match parse_filename bytes with
        | .err e => .err e
        | .panic => .panic
        | .ok (filename, bytes) =>
          match parse_mode bytes with
          | .err e => .err e
          | .panic => .panic
          | .ok (mode, _) => .ok (.RRQ filename mode)
      | .WRQ =>
        match parse_filename bytes with
        | .err e => .err e
        | .panic => .panic
        | .ok (filename, bytes) =>
          match parse_mode bytes with
          | .err e => .err e
          | .panic => .panic
          | .ok (mode, _) => .ok (.WRQ filename mode)
      | .DATA =>
        match parse_block_number bytes with
        | .err e => .err e
        | .panic => .panic
        | .ok (block_number, bytes) =>
          if bytes.length > 512 then .err (.InvalidPacketLength 512)
          else .ok (.DATA block_number bytes)
      | .ACK =>
        match parse_block_number bytes with
        | .err e => .err e
        | .panic => .panic
        | .ok (block_number, bytes) =>
          if bytes.isEmpty then .ok (.ACK block_number)
          else .err (.InvalidPacketLength 4)
      | .ERROR =>
        match parse_error_code bytes with
        | .err e => .err e
        | .panic => .panic
        | .ok (error_code, bytes) =>
          match parse_error_message bytes with
          | .err e => .err e
          | .panic => .panic
          | .ok (error_msg, _) => .ok (.ERROR error_code error_msg)

/-- `Packet::to_bytes` in `lib.rs`. -/
def Packet.to_bytes : Packet → List Nat
  | .RRQ filename mode => [0, 1] ++ filename ++ [0] ++ Mode.as_str mode ++ [0]
  | .WRQ filename mode => [0, 2] ++ filename ++ [0] ++ Mode.as_str mode ++ [0]
  | .DATA block_number data => [0, 3] ++ u16_to_be block_number ++ data
  | .ACK block_number => [0, 4] ++ u16_to_be block_number
  | .ERROR error_code error_msg =>
    [0, 5] ++ u16_to_be (ErrorCode.to_u16 error_code) ++ error_msg ++ [0]

/-- A byte list containing no zero byte (text fields have the null as
terminator, never as content). -/
def no_null (l : List Nat) : Prop := ∀ b ∈ l, b ≠ 0

instance (l : List Nat) : Decidable (no_null l) := by
  unfold no_null
  infer_instance

/-- The data-model invariants of a packet: text fields are well-formed UTF-8
without embedded null bytes, block numbers fit a u16, DATA payloads hold at
most 512 bytes. -/
def Packet.wf : Packet → Prop
  | .RRQ filename _ => utf8_valid filename = true ∧ no_null filename
  | .WRQ filename _ => utf8_valid filename = true ∧ no_null filename
  | .DATA block_number data => block_number < 65536 ∧ data.length ≤ 512
  | .ACK block_number => block_number < 65536
  | .ERROR _ error_msg => utf8_valid error_msg = true ∧ no_null error_msg

instance : (p : Packet) → Decidable p.wf
  | .RRQ f _ => inferInstanceAs (Decidable (utf8_valid f = true ∧ no_null f))
  | .WRQ f _ => inferInstanceAs (Decidable (utf8_valid f = true ∧ no_null f))
  | .DATA bn d => inferInstanceAs (Decidable (bn < 65536 ∧ d.length ≤ 512))
  | .ACK bn => inferInstanceAs (Decidable (bn < 65536))
  | .ERROR _ m => inferInstanceAs (Decidable (utf8_valid m = true ∧ no_null m))

/-- The fixed wire layout as the spec states it, written from the spec table:
two big-endian opcode bytes, then for RRQ/WRQ the filename bytes, a null, the
canonical mode string and a null; for DATA the block number (2 bytes BE) and
the raw payload; for ACK the block number only; for ERROR the error code
(2 bytes BE), the message bytes and a null. -/
def spec_wire_layout : Packet → List Nat
  | .RRQ filename mode => u16_to_be 1 ++ filename ++ [0] ++ Mode.as_str mode ++ [0]
  | .WRQ filename mode => u16_to_be 2 ++ filename ++ [0] ++ Mode.as_str mode ++ [0]
  | .DATA block_number data => u16_to_be 3 ++ u16_to_be block_number ++ data
  | .ACK block_number => u16_to_be 4 ++ u16_to_be block_number
  | .ERROR error_code error_msg =>
    u16_to_be 5 ++ u16_to_be (ErrorCode.to_u16 error_code) ++ error_msg ++ [0]

lemma take_till_null_no_zero (l : List Nat) (h : no_null l) :
    take_till_null l = some ([], l) := by
  induction l with
  | nil => rfl
  | cons b rest ih =>
    have hb : b ≠ 0 := h b (List.mem_cons_self b rest)
    have hr := ih (fun x hx => h x (List.mem_cons_of_mem b hx))
    simp [take_till_null, hb, hr]

lemma take_till_null_split (pre suf : List Nat) (h : no_null pre) :
    take_till_null (pre ++ 0 :: suf) = some (0 :: suf, pre) := by
  induction pre with
  | nil => simp [take_till_null]
  | cons b rest ih =>
    have hb : b ≠ 0 := h b (List.mem_cons_self b rest)
    have hr := ih (fun x hx => h x (List.mem_cons_of_mem b hx))
    simp [take_till_null, hb, hr]

lemma parse_filename_terminated (f rest : List Nat) (hu : utf8_valid f = true)
    (hn : no_null f) : parse_filename (f ++ 0 :: rest) = .ok (f, rest) := by
  unfold parse_filename
  rw [take_till_null_split f rest hn]
  simp [from_utf8, hu]

lemma parse_mode_as_str (m : Mode) (rest : List Nat) :
    parse_mode (Mode.as_str m ++ 0 :: rest) = .ok (m, 0 :: rest) := by
  cases m <;> rfl

lemma parse_mode_as_str_no_term (m : Mode) :
    parse_mode (Mode.as_str m) = .ok (m, []) := by
  cases m <;> rfl

lemma parse_error_message_terminated (msg rest : List Nat)
    (hu : utf8_valid msg = true) (hn : no_null msg) :
    parse_error_message (msg ++ 0 :: rest) = .ok (msg, 0 :: rest) := by
  unfold parse_error_message
  rw [take_till_null_split msg rest hn]
  simp [from_utf8, hu]

lemma parse_error_message_no_term (msg : List Nat) (hu : utf8_valid msg = true)
    (hn : no_null msg) : parse_error_message msg = .ok (msg, []) := by
  unfold parse_error_message
  rw [take_till_null_no_zero msg hn]
  simp [from_utf8, hu]

lemma take_u16_be (n : Nat) (h : n < 65536) (rest : List Nat) :
    take_u16 (u16_to_be n ++ rest) = some (rest, n) := by
  simp only [u16_to_be, List.cons_append, List.nil_append, take_u16,
    Option.some.injEq, Prod.mk.injEq, true_and]
  omega

lemma errorcode_roundtrip (ec : ErrorCode) :
    ErrorCode.try_from_u16 (ErrorCode.to_u16 ec) = .ok ec := by
  cases ec <;> rfl

lemma errorcode_to_u16_lt (ec : ErrorCode) : ErrorCode.to_u16 ec < 65536 := by
  cases ec <;> decide

lemma opcode_try_from_out (v : Nat) (h : v = 0 ∨ 5 < v) :
    Opcode.try_from_u16 v = .error "Invalid opcode: \x7b\x7d" := by
  unfold Opcode.try_from_u16
  rw [if_neg (by omega), if_neg (by omega), if_neg (by omega), if_neg (by omega),
    if_neg (by omega)]

lemma from_bytes_rrq (f : List Nat) (m : Mode) (t : List Nat)
    (hu : utf8_valid f = true) (hn : no_null f) :
    Packet.from_bytes (0 :: 1 :: (f ++ 0 :: (Mode.as_str m ++ 0 :: t)))
      = .ok (.RRQ f m) := by
  simp only [Packet.from_bytes, take_u16]
  norm_num [Opcode.try_from_u16]
  rw [parse_filename_terminated f _ hu hn]
  simp [parse_mode_as_str]

lemma from_bytes_wrq (f : List Nat) (m : Mode) (t : List Nat)
    (hu : utf8_valid f = true) (hn : no_null f) :
    Packet.from_bytes (0 :: 2 :: (f ++ 0 :: (Mode.as_str m ++ 0 :: t)))
      = .ok (.WRQ f m) := by
  simp only [Packet.from_bytes, take_u16]
  norm_num [Opcode.try_from_u16]
  rw [parse_filename_terminated f _ hu hn]
  simp [parse_mode_as_str]

lemma from_bytes_data (b1 b2 : Nat) (payload : List Nat) :
    Packet.from_bytes (0 :: 3 :: b1 :: b2 :: payload)
      = if payload.length > 512 then .err (.InvalidPacketLength 512)
        else .ok (.DATA (b1 * 256 + b2) payload) := by
  simp [Packet.from_bytes, take_u16, Opcode.try_from_u16, parse_block_number]

lemma from_bytes_ack (b1 b2 : Nat) (rest : List Nat) :
    Packet.from_bytes (0 :: 4 :: b1 :: b2 :: rest)
      = if rest.isEmpty then .ok (.ACK (b1 * 256 + b2))
        else .err (.InvalidPacketLength 4) := by
  simp [Packet.from_bytes, take_u16, Opcode.try_from_u16, parse_block_number]

lemma from_bytes_error_pkt (ec : ErrorCode) (msg t : List Nat)
    (hu : utf8_valid msg = true) (hn : no_null msg) :
    Packet.from_bytes (0 :: 5 :: (u16_to_be (ErrorCode.to_u16 ec) ++ (msg ++ 0 :: t)))
      = .ok (.ERROR ec msg) := by
  simp only [Packet.from_bytes, take_u16]
  norm_num [Opcode.try_from_u16]
  simp only [parse_error_code, take_u16_be _ (errorcode_to_u16_lt ec), errorcode_roundtrip]
  rw [parse_error_message_terminated msg t hu hn]

lemma parse_filename_not_opcode_err (bs : List Nat) (s : String) :
    parse_filename bs ≠ .err (.InvalidOpcode s) := by
  unfold parse_filename
  split
  · simp
  · split
    · simp
    · split <;> simp

lemma parse_mode_not_opcode_err (bs : List Nat) (s : String) :
    parse_mode bs ≠ .err (.InvalidOpcode s) := by
  unfold parse_mode
  split
  · simp
  · split
    · simp
    · split <;> simp

lemma parse_block_number_not_opcode_err (bs : List Nat) (s : String) :
    parse_block_number bs ≠ .err (.InvalidOpcode s) := by
  unfold parse_block_number
  split <;> simp

lemma parse_error_code_not_opcode_err (bs : List Nat) (s : String) :
    parse_error_code bs ≠ .err (.InvalidOpcode s) := by
  unfold parse_error_code
  split
  · simp
  · split <;> simp

lemma parse_error_message_not_opcode_err (bs : List Nat) (s : String) :
    parse_error_message bs ≠ .err (.InvalidOpcode s) := by
  unfold parse_error_message
  split
  · simp
  · split <;> simp

lemma from_bytes_not_opcode_of_valid (a b : Nat) (rest : List Nat)
    (h1 : 1 ≤ a * 256 + b) (h5 : a * 256 + b ≤ 5) (s : String) :
    Packet.from_bytes (a :: b :: rest) ≠ .err (.InvalidOpcode s) := by
  intro heq
  simp only [Packet.from_bytes, take_u16] at heq
  have hv : a * 256 + b = 1 ∨ a * 256 + b = 2 ∨ a * 256 + b = 3 ∨
      a * 256 + b = 4 ∨ a * 256 + b = 5 := by omega
  rcases hv with hv | hv | hv | hv | hv <;> rw [hv] at heq <;>
    norm_num [Opcode.try_from_u16] at heq <;>
    (repeat' split at heq) <;>
    simp_all [parse_filename_not_opcode_err, parse_mode_not_opcode_err,
      parse_block_number_not_opcode_err, parse_error_code_not_opcode_err,
      parse_error_message_not_opcode_err]

/-- Claim C1: for every `Packet` value satisfying the data-model invariants
(text fields valid UTF-8 with no embedded null byte, block numbers below 2^16,
DATA payload of at most 512 bytes), decoding its encoding returns exactly the
original packet: `Packet.from_bytes p.to_bytes = ok p`. -/
theorem roundtrip_from_bytes_to_bytes (p : Packet) (h : p.wf) :
    Packet.from_bytes p.to_bytes = .ok p := by
  cases p with
  | RRQ f m =>
    obtain ⟨hu, hn⟩ := h
    have hb := from_bytes_rrq f m [] hu hn
    simpa [Packet.to_bytes, List.append_assoc] using hb
  | WRQ f m =>
    obtain ⟨hu, hn⟩ := h
    have hb := from_bytes_wrq f m [] hu hn
    simpa [Packet.to_bytes, List.append_assoc] using hb
  | DATA bn data =>
    obtain ⟨hbn, hlen⟩ := h
    have hb := from_bytes_data (bn / 256 % 256) (bn % 256) data
    have hv : bn / 256 % 256 * 256 + bn % 256 = bn := by omega
    rw [hv, if_neg (by omega)] at hb
    simpa [Packet.to_bytes, u16_to_be] using hb
  | ACK bn =>
    have hbn : bn < 65536 := h
    have hb := from_bytes_ack (bn / 256 % 256) (bn % 256) []
    have hv : bn / 256 % 256 * 256 + bn % 256 = bn := by omega
    rw [hv] at hb
    simpa [Packet.to_bytes, u16_to_be] using hb
  | ERROR ec msg =>
    obtain ⟨hu, hn⟩ := h
    have hb := from_bytes_error_pkt ec msg [] hu hn
    simpa [Packet.to_bytes, List.append_assoc] using hb

/-- Witness for C1 at a concrete packet. -/
theorem roundtrip_from_bytes_to_bytes_witness :
    (Packet.RRQ [67, 68, 69] .Octet).wf ∧
      Packet.from_bytes (Packet.RRQ [67, 68, 69] .Octet).to_bytes
        = .ok (.RRQ [67, 68, 69] .Octet) :=
  ⟨by decide, roundtrip_from_bytes_to_bytes _ (by decide)⟩

/-- Claim C2 (code-bug evidence): on the input `[65]` — a byte sequence with
no zero byte whose content is valid UTF-8 — `parse_filename` panics (the
source indexes `&bytes[1..]` on an empty remaining slice) instead of returning
`Err(InvalidPacket(_))` as the spec requires for a missing terminator. -/
theorem parse_filename_missing_terminator_panics :
    parse_filename [65] = .panic := by decide

/-- Claim C3 as stated is false at concrete inputs: on `[65]` (no zero byte)
`take_till_null` succeeds instead of failing, and on `[65, 0, 66]` the
remaining slice it returns is `[0, 66]`, which still starts with the
terminator rather than excluding it. -/
theorem take_till_null_claim_counterexample :
    take_till_null [65] = some ([], [65]) ∧
      take_till_null [65, 0, 66] = some ([0, 66], [65]) := by decide

/-- Claim C3 amended: `take_till_null` never fails; on input containing no
zero byte it consumes the whole input (empty remaining slice), and on input
with a zero byte it returns the bytes before the first zero together with a
remaining slice that begins with (includes) the terminator. -/
theorem take_till_null_spec :
    (∀ l : List Nat, no_null l → take_till_null l = some ([], l)) ∧
      (∀ pre suf : List Nat, no_null pre →
        take_till_null (pre ++ 0 :: suf) = some (0 :: suf, pre)) :=
  ⟨take_till_null_no_zero, take_till_null_split⟩

/-- Witness for the amended C3 at concrete inputs. -/
theorem take_till_null_spec_witness :
    no_null [65] ∧ take_till_null [65] = some ([], [65]) ∧
      take_till_null ([65] ++ 0 :: [66]) = some (0 :: [66], [65]) :=
  ⟨by decide, take_till_null_spec.1 [65] (by decide),
    take_till_null_spec.2 [65] [66] (by decide)⟩

/-- Claim C4: an input `[0,3] ++ block(2 bytes) ++ payload` decodes to
`DATA{block_number, data: payload}` with the payload verbatim whenever the
payload holds at most 512 bytes, and fails with `InvalidPacketLength(512)`
whenever it is longer. -/
theorem data_length_boundary (b1 b2 : Nat) (payload : List Nat) :
    (payload.length ≤ 512 →
      Packet.from_bytes (0 :: 3 :: b1 :: b2 :: payload)
        = .ok (.DATA (b1 * 256 + b2) payload)) ∧
    (512 < payload.length →
      Packet.from_bytes (0 :: 3 :: b1 :: b2 :: payload)
        = .err (.InvalidPacketLength 512)) := by
  constructor <;> intro h <;> rw [from_bytes_data]
  · rw [if_neg (by omega)]
  · rw [if_pos (by omega)]

/-- Witness for C4: a payload of exactly 512 bytes decodes, 513 bytes fails. -/
theorem data_length_boundary_witness :
    (List.replicate 512 69).length ≤ 512 ∧
      Packet.from_bytes (0 :: 3 :: 0 :: 42 :: List.replicate 512 69)
        = .ok (.DATA 42 (List.replicate 512 69)) ∧
      512 < (List.replicate 513 69).length ∧
      Packet.from_bytes (0 :: 3 :: 0 :: 42 :: List.replicate 513 69)
        = .err (.InvalidPacketLength 512) :=
  ⟨by simp only [List.length_replicate]; omega,
    (data_length_boundary 0 42 (List.replicate 512 69)).1
      (by simp only [List.length_replicate]; omega),
    by simp only [List.length_replicate]; omega,
    (data_length_boundary 0 42 (List.replicate 513 69)).2
      (by simp only [List.length_replicate]; omega)⟩

/-- Claim C5: `[0,4,0,42]` decodes to `ACK{block_number: 42}`, and any input
with opcode 4 that has bytes left over after the two block-number bytes fails
with `InvalidPacketLength(4)`. -/
theorem ack_length_boundary :
    Packet.from_bytes [0, 4, 0, 42] = .ok (.ACK 42) ∧
      ∀ (b1 b2 : Nat) (rest : List Nat), rest ≠ [] →
        Packet.from_bytes (0 :: 4 :: b1 :: b2 :: rest)
          = .err (.InvalidPacketLength 4) := by
  refine ⟨by decide, fun b1 b2 rest hr => ?_⟩
  rw [from_bytes_ack, if_neg (by simpa [List.isEmpty_iff] using hr)]

/-- Witness for C5: `[0,4,0,42,0]` fails with `InvalidPacketLength(4)`. -/
theorem ack_length_boundary_witness :
    ([0] : List Nat) ≠ [] ∧
      Packet.from_bytes [0, 4, 0, 42, 0] = .err (.InvalidPacketLength 4) :=
  ⟨by decide, ack_length_boundary.2 0 42 [0] (by decide)⟩

/-- Claim C6: decoding fails with `InvalidOpcode` exactly when the input has
fewer than two bytes or the big-endian value of its first two bytes lies
outside the set of opcodes 1 through 5; in particular opcode values 0 and 6
fail with `InvalidOpcode`. -/
theorem invalid_opcode_characterization :
    (∀ l : List Nat, l.length < 2 →
      ∃ s, Packet.from_bytes l = .err (.InvalidOpcode s)) ∧
    (∀ (a b : Nat) (rest : List Nat),
      (∃ s, Packet.from_bytes (a :: b :: rest) = .err (.InvalidOpcode s)) ↔
        (a * 256 + b = 0 ∨ 5 < a * 256 + b)) ∧
    (∃ s, Packet.from_bytes [0, 0] = .err (.InvalidOpcode s)) ∧
    (∃ s, Packet.from_bytes [0, 6] = .err (.InvalidOpcode s)) := by
  have hout : ∀ (a b : Nat) (rest : List Nat), a * 256 + b = 0 ∨ 5 < a * 256 + b →
      ∃ s, Packet.from_bytes (a :: b :: rest) = .err (.InvalidOpcode s) := by
    intro a b rest hv
    refine ⟨"Error while parsing opcode: " ++ "Invalid opcode: \x7b\x7d", ?_⟩
    simp only [Packet.from_bytes, take_u16]
    rw [opcode_try_from_out _ hv]
  refine ⟨?_, fun a b rest => ⟨?_, hout a b rest⟩, hout 0 0 [] (by omega),
    hout 0 6 [] (by omega)⟩
  · intro l hl
    rcases l with _ | ⟨a, _ | ⟨b, rest⟩⟩
    · exact ⟨_, rfl⟩
    · exact ⟨_, rfl⟩
    · simp at hl
      omega
  · intro ⟨s, hs⟩
    by_contra hv
    push_neg at hv
    exact from_bytes_not_opcode_of_valid a b rest (by omega) (by omega) s hs

/-- Witness for C6 at concrete inputs: a one-byte input and opcode 6. -/
theorem invalid_opcode_characterization_witness :
    ([0] : List Nat).length < 2 ∧
      (∃ s, Packet.from_bytes [0] = .err (.InvalidOpcode s)) ∧
      (∃ s, Packet.from_bytes [0, 6, 1] = .err (.InvalidOpcode s)) :=
  ⟨by decide, invalid_opcode_characterization.1 [0] (by decide),
    (invalid_opcode_characterization.2.1 0 6 [1]).mpr (by decide)⟩

/-- Claim C7: `to_bytes` is total (its Lean type is a plain function with no
error outcome) and produces exactly the fixed wire layout of the spec: two
big-endian opcode bytes, then per variant the filename/null/mode/null fields,
the block number and raw payload (with no 512-byte check), the block number
alone, or the error code, message bytes and a null. -/
theorem to_bytes_matches_spec_layout (p : Packet) :
    p.to_bytes = spec_wire_layout p := by
  cases p <;> rfl

/-- Claim C8: mode parsing is a case-sensitive exact match against the closed
set of canonical strings, `Mode.try_from` inverts `Mode.as_str`, every other
string is rejected, and the concrete packet with mode string "C" fails with
`InvalidPacket`. -/
theorem mode_exact_match :
    (∀ m : Mode, Mode.try_from (Mode.as_str m) = .ok m) ∧
    (∀ s : List Nat, s ≠ Mode.as_str .Netascii → s ≠ Mode.as_str .Octet →
      s ≠ Mode.as_str .Mail → Mode.try_from s = .error "Invalid mode") ∧
    Packet.from_bytes [0, 1, 67, 68, 69, 0, 67, 0]
      = .err (.InvalidPacket "Error while parsing mode. Not a valid mode string.") := by
  refine ⟨fun m => by cases m <;> rfl, fun s h1 h2 h3 => ?_, by decide⟩
  simp only [Mode.as_str] at h1 h2 h3
  unfold Mode.try_from
  rw [if_neg h1, if_neg h2, if_neg h3]

/-- Witness for C8: the one-byte mode string "C" is rejected. -/
theorem mode_exact_match_witness :
    ([67] : List Nat) ≠ Mode.as_str .Netascii ∧
      ([67] : List Nat) ≠ Mode.as_str .Octet ∧
      ([67] : List Nat) ≠ Mode.as_str .Mail ∧
      Mode.try_from [67] = .error "Invalid mode" :=
  ⟨by decide, by decide, by decide,
    mode_exact_match.2.1 [67] (by decide) (by decide) (by decide)⟩

/-- Claim C9: for every well-formed RRQ, WRQ, or ERROR packet, appending any
extra bytes to its encoding leaves decoding unchanged: the same `ok` packet
comes back, never an error. -/
theorem trailing_bytes_ignored :
    (∀ (f : List Nat) (m : Mode) (extra : List Nat),
      utf8_valid f = true → no_null f →
      Packet.from_bytes ((Packet.RRQ f m).to_bytes ++ extra) = .ok (.RRQ f m)) ∧
    (∀ (f : List Nat) (m : Mode) (extra : List Nat),
      utf8_valid f = true → no_null f →
      Packet.from_bytes ((Packet.WRQ f m).to_bytes ++ extra) = .ok (.WRQ f m)) ∧
    (∀ (ec : ErrorCode) (msg extra : List Nat),
      utf8_valid msg = true → no_null msg →
      Packet.from_bytes ((Packet.ERROR ec msg).to_bytes ++ extra)
        = .ok (.ERROR ec msg)) := by
  refine ⟨fun f m extra hu hn => ?_, fun f m extra hu hn => ?_,
    fun ec msg extra hu hn => ?_⟩
  · have hb := from_bytes_rrq f m extra hu hn
    simpa [Packet.to_bytes, List.append_assoc] using hb
  · have hb := from_bytes_wrq f m extra hu hn
    simpa [Packet.to_bytes, List.append_assoc] using hb
  · have hb := from_bytes_error_pkt ec msg extra hu hn
    simpa [Packet.to_bytes, List.append_assoc] using hb

/-- Witness for C9: appending two junk bytes to an RRQ encoding decodes to the
same packet. -/
theorem trailing_bytes_ignored_witness :
    utf8_valid [67, 68, 69] = true ∧ no_null [67, 68, 69] ∧
      Packet.from_bytes ((Packet.RRQ [67, 68, 69] .Octet).to_bytes ++ [9, 9])
        = .ok (.RRQ [67, 68, 69] .Octet) :=
  ⟨by decide, by decide,
    trailing_bytes_ignored.1 [67, 68, 69] .Octet [9, 9] (by decide) (by decide)⟩

/-- Claim C10: decoding also accepts RRQ/WRQ and ERROR inputs whose final null
terminator is absent: `parse_error_message` succeeds on null-free well-formed
input taking all remaining bytes, `parse_mode` accepts an unterminated mode
string, and the two concrete unterminated inputs decode to the stated
packets. -/
theorem missing_final_null_accepted :
    (∀ bs : List Nat, no_null bs → utf8_valid bs = true →
      parse_error_message bs = .ok (bs, [])) ∧
    (∀ m : Mode, parse_mode (Mode.as_str m) = .ok (m, [])) ∧
    Packet.from_bytes [0, 5, 0, 2, 67, 68, 69]
      = .ok (.ERROR .AccessViolation [67, 68, 69]) ∧
    Packet.from_bytes [0, 1, 67, 68, 69, 0, 111, 99, 116, 101, 116]
      = .ok (.RRQ [67, 68, 69] .Octet) :=
  ⟨fun bs hn hu => parse_error_message_no_term bs hu hn,
    parse_mode_as_str_no_term, by decide, by decide⟩

/-- Witness for C10: the unterminated error message "CDE" is taken whole. -/
theorem missing_final_null_accepted_witness :
    no_null [67, 68, 69] ∧ utf8_valid [67, 68, 69] = true ∧
      parse_error_message [67, 68, 69] = .ok ([67, 68, 69], []) :=
  ⟨by decide, by decide,
    missing_final_null_accepted.1 [67, 68, 69] (by decide) (by decide)⟩

end TFTP
